import Mathlib

/-!
Verification development for the task_executor repository (`src/simulate.py`).

The script runs a list of scenarios; each scenario executes a shell command
`times` times, consulting a delay policy (`ScenarioRunner.calculate_delay`)
after each successful execution and sleeping for the returned duration.

Shallow embedding conventions:
* Durations are rationals (`ℚ`), standing for Python floats.
* The global `random` module is a pair of streams with a position counter
  (`Rng`): `random.uniform (0, m)` consumes one element of the unit stream,
  `random.randint (1, n)` one element of the natural stream.
* A Python exception is `Option.none` in the outer layer of a result; a
  Python `None` *value* flowing where a float is expected is `Option.none`
  in the inner layer (the `ScenarioConfig` dataclass defaults every
  policy parameter to `None`).
* Command execution is an oracle `outcomes : Nat → Bool` giving the
  success flag of the i-th execution of the scenario's command.
-/

namespace TaskExecutor

/-- Pseudo-random source: a stream of unit-interval draws backing
`random.uniform`, a stream of naturals backing `random.randint`, and the
current position (both Python calls advance the same global generator). -/
structure Rng where
  unit : Nat → ℚ
  nats : Nat → Nat
  pos : Nat

/-- Advance the generator by one draw. -/
def Rng.next (r : Rng) : Rng :=
  { r with pos := r.pos + 1 }

/-- Model of `random.uniform(0, m)`: scales the next unit draw by `m`. -/
def uniform (r : Rng) (m : ℚ) : ℚ × Rng :=
  (m * r.unit r.pos, r.next)

/-- Model of `random.randint(lo, hi)`: `none` models the `ValueError`
Python raises on an empty range, otherwise the next natural draw is
mapped into `[lo, hi]`. -/
def randint (r : Rng) (lo hi : Int) : Option (Int × Rng) :=
  if hi < lo then none
  else some (lo + (r.nats r.pos : Int) % (hi - lo + 1), r.next)

/-- Python's `%` on integers (floored modulus); `none` models the
`ZeroDivisionError` raised when the divisor is zero. -/
def pymod (a b : Int) : Option Int :=
  if b = 0 then none else some (Int.fmod a b)

/-- The `ScenarioConfig` dataclass (simulate.py lines 56-67): every policy
parameter defaults to `None`. `times` is a plain Python int. -/
structure ScenarioConfig where
  name : String
  type : String
  command : String
  times : Int
  max_delay : Option ℚ := none
  k : Option Int := none
  fixed_delay : Option ℚ := none
  max_block_size : Option Int := none
deriving DecidableEq

namespace ScenarioRunner

/-- `ScenarioRunner.calculate_delay` (simulate.py lines 173-200).

The outer `Option` is `none` when the Python code raises (a `TypeError`
from using a `None` parameter in arithmetic or in `random.uniform` /
`random.randint`, a `ZeroDivisionError` from `% 0`, or a `ValueError` from
`random.randint` on an empty range).  The inner `Option` is the returned
value: `none` when the Python function returns the `None` object (the
`fixed_delay` field when that parameter is missing), `some d` when it
returns the float `d`. -/
def calculate_delay (cfg : ScenarioConfig) (current : Nat) (r : Rng) :
    Option (Option ℚ × Rng) :=
  if (current : Int) ≥ cfg.times - 1 then some (some 0, r)
  else if cfg.type = "random_delay" then
    match cfg.max_delay with
    | none => none
    | some m => some (some (uniform r m).1, (uniform r m).2)
  else if cfg.type = "fixed_delay_block" then
    match cfg.k with
    | none => none
    | some kk =>
      match pymod ((current : Int) + 1) kk with
      | none => none
      | some m => some (if m = 0 then cfg.fixed_delay else some 0, r)
  else if cfg.type = "random_delay_block" then
    match cfg.k with
    | none => none
    | some kk =>
      match pymod ((current : Int) + 1) kk with
      | none => none
      | some m =>
        if m = 0 then
          match cfg.max_delay with
          | none => none
          | some md => some (some (uniform r md).1, (uniform r md).2)
        else some (some 0, r)
  else if cfg.type = "random_block_size_fixed_delay" then
    match cfg.max_block_size with
    | none => none
    | some n =>
      match randint r 1 n with
      | none => none
      | some vr => some (if vr.1 = 1 then cfg.fixed_delay else some 0, vr.2)
  else if cfg.type = "random_block_size_random_delay" then
    match cfg.max_block_size with
    | none => none
    | some n =>
      match randint r 1 n with
      | none => none
      | some vr =>
        if vr.1 = 1 then
          match cfg.max_delay with
          | none => none
          | some md => some (some (uniform vr.2 md).1, (uniform vr.2 md).2)
        else some (some 0, vr.2)
  else some (some 0, r)

end ScenarioRunner

/-- Observable events of one scenario run: a command execution with its
success flag, a consultation of the delay policy, a sleep of a given
duration — each tagged with the iteration index. -/
inductive Event where
  | exec (i : Nat) (ok : Bool)
  | consult (i : Nat)
  | sleep (i : Nat) (d : ℚ)
deriving DecidableEq

/-- The per-scenario mutable state of `ScenarioRunner` that the claims
observe: the counters and lists of `ScenarioReport` plus an event trace
and an aborted flag (set when the `except` clause breaks the loop). -/
structure RunState where
  success_count : Nat
  failure_count : Nat
  executions : Nat
  delay_times : List ℚ
  events : List Event
  aborted : Bool
deriving DecidableEq

/-- The report state as initialised in `ScenarioRunner.__init__`. -/
def initState : RunState :=
  { success_count := 0, failure_count := 0, executions := 0,
    delay_times := [], events := [], aborted := false }

namespace ScenarioRunner

/-- One pass of the loop body of `ScenarioRunner.run` (simulate.py lines
226-241), recursing on the number of remaining iterations.

On a failed execution `run_command` increments `failure_count`, appends
the execution time, and re-raises; the `except` clause breaks the loop.
On success the delay policy is consulted; an exception there is caught by
the same clause (abort), and a `None` delay value makes the subsequent
`progress.update` format raise (abort as well).  A positive delay is
appended to `delay_times` and slept. -/
def runAux (cfg : ScenarioConfig) (outcomes : Nat → Bool) :
    Nat → Nat → Rng → RunState → RunState × Rng
  | _, 0, r, s => (s, r)
  | i, rem + 1, r, s =>
    if outcomes i then
      let s1 : RunState :=
        { s with success_count := s.success_count + 1,
                 executions := s.executions + 1,
                 events := s.events ++ [Event.exec i true] }
      match calculate_delay cfg i r with
      | none =>
        ({ s1 with events := s1.events ++ [Event.consult i], aborted := true }, r)
      | some (none, r1) =>
        ({ s1 with events := s1.events ++ [Event.consult i], aborted := true }, r1)
      | some (some d, r1) =>
        let s2 : RunState := { s1 with events := s1.events ++ [Event.consult i] }
        if 0 < d then
          runAux cfg outcomes (i + 1) rem r1
            { s2 with delay_times := s2.delay_times ++ [d],
                      events := s2.events ++ [Event.sleep i d] }
        else
          runAux cfg outcomes (i + 1) rem r1 s2
    else
      ({ s with failure_count := s.failure_count + 1,
                executions := s.executions + 1,
                events := s.events ++ [Event.exec i false],
                aborted := true }, r)

/-- `ScenarioRunner.run` (simulate.py lines 222-245): iterate the loop
body over `range(times)` starting from the freshly initialised report. -/
def run (cfg : ScenarioConfig) (outcomes : Nat → Bool) (r : Rng) :
    RunState × Rng :=
  runAux cfg outcomes 0 cfg.times.toNat r initState

end ScenarioRunner

namespace SimulationManager

/-- `SimulationManager.load_config` (simulate.py lines 286-294): it builds
a `ScenarioConfig` from each YAML entry and returns the list unchanged —
despite its docstring, it performs no validation of policy kinds or
parameters. -/
def load_config (scenarios : List ScenarioConfig) : List ScenarioConfig :=
  scenarios

/-- The scenario loop of `SimulationManager.run_scenarios` (simulate.py
lines 296-323): run each scenario in declared order, threading the global
random generator, collecting one report per scenario.  `outcomes j` is
the command oracle of the j-th remaining scenario. -/
def run_scenariosAux (outcomes : Nat → Nat → Bool) :
    List ScenarioConfig → Rng → List RunState × Rng
  | [], r => ([], r)
  | cfg :: rest, r =>
    let p := ScenarioRunner.run cfg (outcomes 0) r
    let q := run_scenariosAux (fun j => outcomes (j + 1)) rest p.2
    (p.1 :: q.1, q.2)

/-- `SimulationManager.run_scenarios`: load the configuration, then run
every scenario in order. -/
def run_scenarios (configs : List ScenarioConfig) (outcomes : Nat → Nat → Bool)
    (r : Rng) : List RunState × Rng :=
  run_scenariosAux outcomes (load_config configs) r

/-- The generator state at which the j-th scenario of the list starts,
obtained by running the preceding scenarios. -/
def rngBefore (outcomes : Nat → Nat → Bool) :
    List ScenarioConfig → Rng → Nat → Rng
  | _, r, 0 => r
  | [], r, _ + 1 => r
  | cfg :: rest, r, j + 1 =>
    rngBefore (fun j2 => outcomes (j2 + 1)) rest
      (ScenarioRunner.run cfg (outcomes 0) r).2 j

/-- Total executions over all reports, as summed in
`SimulationManager.print_final_report` (simulate.py line 328). -/
def total_executions (reports : List RunState) : Nat :=
  (reports.map (fun rep => rep.success_count + rep.failure_count)).sum

/-- Total successes over all reports (simulate.py line 329). -/
def total_successes (reports : List RunState) : Nat :=
  (reports.map (fun rep => rep.success_count)).sum

/-- The overall-success-rate computation of
`SimulationManager.print_final_report` (simulate.py line 341):
`total_successes / total_executions * 100`.  `none` models the
`ZeroDivisionError` raised when `total_executions` is zero. -/
def overall_success_rate (reports : List RunState) : Option ℚ :=
  if total_executions reports = 0 then none
  else some ((total_successes reports : ℚ) / (total_executions reports : ℚ) * 100)

end SimulationManager

/-- The full sequence of delay decisions of one scenario, obtained by
consulting `calculate_delay` at indices `0, …, times-1` with the
generator threaded through; `none` when any consultation raises or
yields a Python `None` value. -/
def delaySeqAux (cfg : ScenarioConfig) : Nat → Nat → Rng → Option (List ℚ × Rng)
  | _, 0, r => some ([], r)
  | i, rem + 1, r =>
    match ScenarioRunner.calculate_delay cfg i r with
    | none => none
    | some (none, _) => none
    | some (some d, r1) =>
      match delaySeqAux cfg (i + 1) rem r1 with
      | none => none
      | some dsr => some (d :: dsr.1, dsr.2)

/-- The delay sequence of a scenario starting from generator state `r`. -/
def delaySeq (cfg : ScenarioConfig) (r : Rng) : Option (List ℚ) :=
  (delaySeqAux cfg 0 cfg.times.toNat r).map Prod.fst

/-- Modelled from the spec: the counter/threshold mechanism that §4.1
describes for the `random_block_size_*` policies — a running counter of
executions since the last pause, incremented each iteration; when the
counter reaches or exceeds a uniform-random threshold in `[1, n]` that is
redrawn only at each pause decision, the delay fires and the counter
resets to 0; no delay after the final iteration.  (The source has no such
counter; this definition exists to compare the spec's mechanism with the
source's behaviour.) -/
def specCounterAux (n : Int) (d : ℚ) (times : Int) :
    Nat → Nat → Int → Int → Rng → Option (List ℚ)
  | _, 0, _, _, _ => some []
  | i, rem + 1, counter, threshold, r =>
    let counter1 := counter + 1
    if (i : Int) ≥ times - 1 then
      match specCounterAux n d times (i + 1) rem counter1 threshold r with
      | none => none
      | some ds => some (0 :: ds)
    else if threshold ≤ counter1 then
      match randint r 1 n with
      | none => none
      | some tr =>
        match specCounterAux n d times (i + 1) rem 0 tr.1 tr.2 with
        | none => none
        | some ds => some (d :: ds)
    else
      match specCounterAux n d times (i + 1) rem counter1 threshold r with
      | none => none
      | some ds => some (0 :: ds)

/-- Modelled from the spec: the full delay sequence of the counter and
threshold mechanism of §4.1 for `random_block_size_fixed_delay`, with the
initial threshold drawn at the start (a reset). -/
def specCounterMechanismDelays (n : Int) (d : ℚ) (times : Int) (r : Rng) :
    Option (List ℚ) :=
  match randint r 1 n with
  | none => none
  | some tr => specCounterAux n d times 0 times.toNat 0 tr.1 tr.2

/-- The amended per-iteration-draw mechanism for
`random_block_size_fixed_delay`: at each non-final iteration a fresh
uniform-random integer in `[1, n]` is drawn and the delay is `d` exactly
when the draw equals 1; no state is kept between iterations. -/
def perDrawFixedAux (n : Int) (d : ℚ) (times : Int) :
    Nat → Nat → Rng → Option (List ℚ)
  | _, 0, _ => some []
  | i, rem + 1, r =>
    if (i : Int) ≥ times - 1 then
      match perDrawFixedAux n d times (i + 1) rem r with
      | none => none
      | some ds => some (0 :: ds)
    else
      match randint r 1 n with
      | none => none
      | some vr =>
        match perDrawFixedAux n d times (i + 1) rem vr.2 with
        | none => none
        | some ds => some ((if vr.1 = 1 then d else 0) :: ds)

/-- The per-iteration-draw delay sequence for
`random_block_size_fixed_delay` over the whole scenario. -/
def perDrawFixedDelays (n : Int) (d : ℚ) (times : Int) (r : Rng) :
    Option (List ℚ) :=
  perDrawFixedAux n d times 0 times.toNat r

/-- The amended per-iteration-draw mechanism for
`random_block_size_random_delay`: same per-iteration draw; when the draw
equals 1 the delay is uniform random in `[0, m]`. -/
def perDrawUniformAux (n : Int) (m : ℚ) (times : Int) :
    Nat → Nat → Rng → Option (List ℚ)
  | _, 0, _ => some []
  | i, rem + 1, r =>
    if (i : Int) ≥ times - 1 then
      match perDrawUniformAux n m times (i + 1) rem r with
      | none => none
      | some ds => some (0 :: ds)
    else
      match randint r 1 n with
      | none => none
      | some vr =>
        if vr.1 = 1 then
          match perDrawUniformAux n m times (i + 1) rem (uniform vr.2 m).2 with
          | none => none
          | some ds => some ((uniform vr.2 m).1 :: ds)
        else
          match perDrawUniformAux n m times (i + 1) rem vr.2 with
          | none => none
          | some ds => some (0 :: ds)

/-- The per-iteration-draw delay sequence for
`random_block_size_random_delay` over the whole scenario. -/
def perDrawUniformDelays (n : Int) (m : ℚ) (times : Int) (r : Rng) :
    Option (List ℚ) :=
  perDrawUniformAux n m times 0 times.toNat r

/-- An optional rational parameter is present and non-negative. -/
def presentNonneg : Option ℚ → Prop
  | none => False
  | some m => 0 ≤ m

instance (o : Option ℚ) : Decidable (presentNonneg o) := by
  cases o <;> unfold presentNonneg <;> infer_instance

/-- An optional integer parameter is present and at least 1. -/
def presentPos : Option Int → Prop
  | none => False
  | some n => 1 ≤ n

instance (o : Option Int) : Decidable (presentPos o) := by
  cases o <;> unfold presentPos <;> infer_instance

/-- The validity invariant of §3: the policy kind is one of the six
recognized values and every parameter it requires is present and within
its stated bounds. -/
def WellFormed (cfg : ScenarioConfig) : Prop :=
  cfg.type = "no_delay" ∨
  (cfg.type = "random_delay" ∧ presentNonneg cfg.max_delay) ∨
  (cfg.type = "fixed_delay_block" ∧ presentPos cfg.k ∧
    presentNonneg cfg.fixed_delay) ∨
  (cfg.type = "random_delay_block" ∧ presentPos cfg.k ∧
    presentNonneg cfg.max_delay) ∨
  (cfg.type = "random_block_size_fixed_delay" ∧ presentPos cfg.max_block_size ∧
    presentNonneg cfg.fixed_delay) ∨
  (cfg.type = "random_block_size_random_delay" ∧ presentPos cfg.max_block_size ∧
    presentNonneg cfg.max_delay)

instance (cfg : ScenarioConfig) : Decidable (WellFormed cfg) := by
  unfold WellFormed; infer_instance

/-- A concrete generator state used to evaluate the embedding. -/
def rng0 : Rng :=
  { unit := fun _ => 0, nats := fun _ => 0, pos := 0 }

/-- A generator whose natural stream is constantly 1, so every
`randint(1, 2)` draw evaluates to 2. -/
def rngOnes : Rng :=
  { unit := fun _ => 0, nats := fun _ => 1, pos := 0 }

/-- The §8 example scenario: `fixed_delay_block` with `k = 3`,
`times = 7`, `fixedDelay = 2.0`. -/
def fdbExample : ScenarioConfig :=
  { name := "fdb", type := "fixed_delay_block", command := "true", times := 7,
    k := some 3, fixed_delay := some 2 }

/-- A `random_block_size_fixed_delay` scenario with `maxBlockSize = 2`,
`fixedDelay = 1.0`, `times = 3`. -/
def rbsExample : ScenarioConfig :=
  { name := "rbs", type := "random_block_size_fixed_delay", command := "true",
    times := 3, max_block_size := some 2, fixed_delay := some 1 }

/-- A `fixed_delay_block` scenario whose required `k` parameter is
missing from the configuration. -/
def missingKExample : ScenarioConfig :=
  { name := "badk", type := "fixed_delay_block", command := "true",
    times := 2, fixed_delay := some 1 }

/-- A scenario whose `type` is none of the six recognized policy kinds. -/
def unknownKindExample : ScenarioConfig :=
  { name := "odd", type := "mystery_policy", command := "true", times := 2 }

/-- A `no_delay` scenario with `times = 0`. -/
def zeroTimesExample : ScenarioConfig :=
  { name := "zero", type := "no_delay", command := "true", times := 0 }

/-- A `no_delay` scenario with `times = 5`. -/
def noDelayExample : ScenarioConfig :=
  { name := "nd", type := "no_delay", command := "true", times := 5 }

/-- A `random_delay_block` scenario, first variant for the determinism
theorem. -/
def rdbExampleA : ScenarioConfig :=
  { name := "alpha", type := "random_delay_block", command := "echo a",
    times := 4, k := some 2, max_delay := some 5 }

/-- The same `random_delay_block` parameters under a different name and
command. -/
def rdbExampleB : ScenarioConfig :=
  { name := "beta", type := "random_delay_block", command := "echo b",
    times := 4, k := some 2, max_delay := some 5 }

lemma calc_final (cfg : ScenarioConfig) (i : Nat) (r : Rng)
    (h : (i : Int) ≥ cfg.times - 1) :
    ScenarioRunner.calculate_delay cfg i r = some (some 0, r) := by
  unfold ScenarioRunner.calculate_delay
  rw [if_pos h]

lemma calc_total (cfg : ScenarioConfig) (hW : WellFormed cfg) (i : Nat) (r : Rng) :
    ∃ d r1, ScenarioRunner.calculate_delay cfg i r = some (some d, r1) := by
  by_cases hfin : (i : Int) ≥ cfg.times - 1
  · exact ⟨0, r, calc_final cfg i r hfin⟩
  rcases hW with h | ⟨h, hm⟩ | ⟨h, hk, hd⟩ | ⟨h, hk, hm⟩ | ⟨h, hn, hd⟩ | ⟨h, hn, hm⟩
  · exact ⟨0, r, by simp [ScenarioRunner.calculate_delay, hfin, h]⟩
  · cases hmd : cfg.max_delay with
    | none => rw [hmd] at hm; exact hm.elim
    | some m =>
      exact ⟨(uniform r m).1, (uniform r m).2,
        by simp [ScenarioRunner.calculate_delay, hfin, h, hmd]⟩
  · cases hkk : cfg.k with
    | none => rw [hkk] at hk; exact hk.elim
    | some K =>
      cases hdd : cfg.fixed_delay with
      | none => rw [hdd] at hd; exact hd.elim
      | some dv =>
        rw [hkk] at hk
        have hK1 : (1 : Int) ≤ K := hk
        have hK0 : K ≠ 0 := by omega
        by_cases hm0 : Int.fmod ((i : Int) + 1) K = 0
        · exact ⟨dv, r, by
            simp [ScenarioRunner.calculate_delay, hfin, h, hkk, hdd, pymod,
              hK0, hm0]⟩
        · exact ⟨0, r, by
            simp [ScenarioRunner.calculate_delay, hfin, h, hkk, hdd, pymod,
              hK0, hm0]⟩
  · cases hkk : cfg.k with
    | none => rw [hkk] at hk; exact hk.elim
    | some K =>
      cases hmd : cfg.max_delay with
      | none => rw [hmd] at hm; exact hm.elim
      | some m =>
        rw [hkk] at hk
        have hK1 : (1 : Int) ≤ K := hk
        have hK0 : K ≠ 0 := by omega
        by_cases hm0 : Int.fmod ((i : Int) + 1) K = 0
        · exact ⟨(uniform r m).1, (uniform r m).2, by
            simp [ScenarioRunner.calculate_delay, hfin, h, hkk, hmd, pymod,
              hK0, hm0]⟩
        · exact ⟨0, r, by
            simp [ScenarioRunner.calculate_delay, hfin, h, hkk, hmd, pymod,
              hK0, hm0]⟩
  · cases hnn : cfg.max_block_size with
    | none => rw [hnn] at hn; exact hn.elim
    | some N =>
      cases hdd : cfg.fixed_delay with
      | none => rw [hdd] at hd; exact hd.elim
      | some dv =>
        rw [hnn] at hn
        have hN1 : (1 : Int) ≤ N := hn
        have hNlt : ¬ N < 1 := by omega
        by_cases h1 : (N : Int) ∣ (r.nats r.pos : Int)
        · exact ⟨dv, r.next, by
            simp [ScenarioRunner.calculate_delay, hfin, h, hnn, hdd, randint,
              hNlt, h1]⟩
        · exact ⟨0, r.next, by
            simp [ScenarioRunner.calculate_delay, hfin, h, hnn, hdd, randint,
              hNlt, h1]⟩
  · cases hnn : cfg.max_block_size with
    | none => rw [hnn] at hn; exact hn.elim
    | some N =>
      cases hmd : cfg.max_delay with
      | none => rw [hmd] at hm; exact hm.elim
      | some m =>
        rw [hnn] at hn
        have hN1 : (1 : Int) ≤ N := hn
        have hNlt : ¬ N < 1 := by omega
        by_cases h1 : (N : Int) ∣ (r.nats r.pos : Int)
        · exact ⟨(uniform r.next m).1, (uniform r.next m).2, by
            simp [ScenarioRunner.calculate_delay, hfin, h, hnn, hmd, randint,
              hNlt, h1]⟩
        · exact ⟨0, r.next, by
            simp [ScenarioRunner.calculate_delay, hfin, h, hnn, hmd, randint,
              hNlt, h1]⟩

end TaskExecutor

namespace TaskExecutor

lemma runAux_sleep_bound (cfg : ScenarioConfig) (outcomes : Nat → Bool) :
    ∀ (rem i : Nat) (r : Rng) (s : RunState),
      (∀ j d, Event.sleep j d ∈ s.events → (j : Int) < cfg.times - 1) →
      ∀ j d, Event.sleep j d ∈ (ScenarioRunner.runAux cfg outcomes i rem r s).1.events →
        (j : Int) < cfg.times - 1 := by
  intro rem
  induction rem with
  | zero =>
    intro i r s hs j d hmem
    exact hs j d hmem
  | succ rem ih =>
    intro i r s hs j d hmem
    by_cases ho : outcomes i
    · rcases hcd : ScenarioRunner.calculate_delay cfg i r with _ | ⟨dv, r1⟩
      · rw [ScenarioRunner.runAux, if_pos ho, hcd] at hmem
        simp only [List.append_assoc, List.mem_append, List.mem_singleton] at hmem
        rcases hmem with hmem | hmem | hmem
        · exact hs j d hmem
        · cases hmem
        · cases hmem
      · rcases dv with _ | dd
        · rw [ScenarioRunner.runAux, if_pos ho, hcd] at hmem
          simp only [List.append_assoc, List.mem_append, List.mem_singleton] at hmem
          rcases hmem with hmem | hmem | hmem
          · exact hs j d hmem
          · cases hmem
          · cases hmem
        · by_cases hd : 0 < dd
          · rw [ScenarioRunner.runAux, if_pos ho, hcd] at hmem
            simp only [if_pos hd] at hmem
            refine ih (i + 1) r1 _ ?_ j d hmem
            intro j2 d2 hmem2
            simp only [List.append_assoc, List.mem_append, List.mem_singleton] at hmem2
            rcases hmem2 with h2 | h2 | h2 | h2
            · exact hs j2 d2 h2
            · cases h2
            · cases h2
            · cases h2 with
              | refl =>
                by_contra hge
                push_neg at hge
                rw [calc_final cfg i r hge] at hcd
                cases hcd
                exact absurd hd (by norm_num)
          · rw [ScenarioRunner.runAux, if_pos ho, hcd] at hmem
            simp only [if_neg hd] at hmem
            refine ih (i + 1) r1 _ ?_ j d hmem
            intro j2 d2 hmem2
            simp only [List.append_assoc, List.mem_append, List.mem_singleton] at hmem2
            rcases hmem2 with h2 | h2 | h2
            · exact hs j2 d2 h2
            · cases h2
            · cases h2
    · rw [ScenarioRunner.runAux, if_neg ho] at hmem
      simp only [List.mem_append, List.mem_singleton] at hmem
      rcases hmem with hmem | hmem
      · exact hs j d hmem
      · cases hmem

/-- C1: for every policy kind, a scenario with `times ≥ 1` gets a zero
delay decision at the final iteration index `times - 1`, and the executor
records no sleep at the final iteration: every slept delay belongs to an
iteration index strictly below `times - 1`. -/
theorem final_iteration_never_sleeps (cfg : ScenarioConfig) (r : Rng)
    (h : 1 ≤ cfg.times) :
    ScenarioRunner.calculate_delay cfg (cfg.times - 1).toNat r = some (some 0, r) ∧
    ∀ (outcomes : Nat → Bool) (j : Nat) (d : ℚ),
      Event.sleep j d ∈ (ScenarioRunner.run cfg outcomes r).1.events →
        (j : Int) < cfg.times - 1 := by
  constructor
  · refine calc_final cfg _ r ?_
    rw [Int.toNat_of_nonneg (by omega)]
  · intro outcomes j d hmem
    refine runAux_sleep_bound cfg outcomes _ 0 r initState ?_ j d hmem
    intro j2 d2 hmem2
    cases hmem2

/-- Witness for C1 at the §8 example configuration. -/
theorem final_iteration_never_sleeps_witness :
    1 ≤ fdbExample.times ∧
    (ScenarioRunner.calculate_delay fdbExample (fdbExample.times - 1).toNat rng0 =
        some (some 0, rng0) ∧
      ∀ (outcomes : Nat → Bool) (j : Nat) (d : ℚ),
        Event.sleep j d ∈ (ScenarioRunner.run fdbExample outcomes rng0).1.events →
          (j : Int) < fdbExample.times - 1) :=
  ⟨by decide, final_iteration_never_sleeps fdbExample rng0 (by decide)⟩

/-- C8: a scenario with `times = 0` performs zero command executions,
records zero delays and zero sleeps, never consults the delay policy, and
reports zero failures (and zero successes). -/
theorem times_zero_trivial (cfg : ScenarioConfig) (outcomes : Nat → Bool)
    (r : Rng) (h : cfg.times = 0) :
    ScenarioRunner.run cfg outcomes r = (initState, r) ∧
    (ScenarioRunner.run cfg outcomes r).1.executions = 0 ∧
    (ScenarioRunner.run cfg outcomes r).1.delay_times = [] ∧
    (ScenarioRunner.run cfg outcomes r).1.failure_count = 0 ∧
    (ScenarioRunner.run cfg outcomes r).1.success_count = 0 ∧
    (ScenarioRunner.run cfg outcomes r).1.events = [] := by
  have hrun : ScenarioRunner.run cfg outcomes r = (initState, r) := by
    unfold ScenarioRunner.run
    rw [h]
    rfl
  refine ⟨hrun, ?_, ?_, ?_, ?_, ?_⟩ <;> rw [hrun] <;> rfl

/-- Witness for C8 at a concrete `times = 0` scenario. -/
theorem times_zero_trivial_witness :
    zeroTimesExample.times = 0 ∧
    (ScenarioRunner.run zeroTimesExample (fun _ => true) rng0 = (initState, rng0) ∧
      (ScenarioRunner.run zeroTimesExample (fun _ => true) rng0).1.executions = 0 ∧
      (ScenarioRunner.run zeroTimesExample (fun _ => true) rng0).1.delay_times = [] ∧
      (ScenarioRunner.run zeroTimesExample (fun _ => true) rng0).1.failure_count = 0 ∧
      (ScenarioRunner.run zeroTimesExample (fun _ => true) rng0).1.success_count = 0 ∧
      (ScenarioRunner.run zeroTimesExample (fun _ => true) rng0).1.events = []) :=
  ⟨rfl, times_zero_trivial zeroTimesExample (fun _ => true) rng0 rfl⟩

end TaskExecutor

namespace TaskExecutor

lemma run_counts_zero (cfg : ScenarioConfig) (outcomes : Nat → Bool) (r : Rng)
    (h : cfg.times = 0) :
    (ScenarioRunner.run cfg outcomes r).1.success_count = 0 ∧
    (ScenarioRunner.run cfg outcomes r).1.failure_count = 0 :=
  ⟨(times_zero_trivial cfg outcomes r h).2.2.2.2.1,
   (times_zero_trivial cfg outcomes r h).2.2.2.1⟩

lemma total_executions_zero_of_times_zero (outcomes : Nat → Nat → Bool) :
    ∀ (configs : List ScenarioConfig) (r : Rng),
      (∀ cfg ∈ configs, cfg.times = 0) →
      SimulationManager.total_executions
        (SimulationManager.run_scenariosAux outcomes configs r).1 = 0 := by
  intro configs
  induction configs generalizing outcomes with
  | nil =>
    intro r _
    rfl
  | cons cfg rest ih =>
    intro r hall
    have h0 : cfg.times = 0 := hall cfg (by simp)
    have hc := run_counts_zero cfg (outcomes 0) r h0
    have hrest := ih (fun j => outcomes (j + 1))
      (ScenarioRunner.run cfg (outcomes 0) r).2
      (fun c hc2 => hall c (by simp [hc2]))
    simp only [SimulationManager.run_scenariosAux, SimulationManager.total_executions,
      List.map_cons, List.sum_cons] at *
    rw [hc.1, hc.2, hrest]

/-- C10: when every scenario has `times = 0` (in particular when there
are no scenarios at all), the total execution count over all reports is
zero and the overall-success-rate computation of `print_final_report`
divides by zero, i.e. raises instead of producing a value. -/
theorem final_report_divides_by_zero (configs : List ScenarioConfig)
    (outcomes : Nat → Nat → Bool) (r : Rng)
    (h : ∀ cfg ∈ configs, cfg.times = 0) :
    SimulationManager.total_executions
        (SimulationManager.run_scenarios configs outcomes r).1 = 0 ∧
    SimulationManager.overall_success_rate
        (SimulationManager.run_scenarios configs outcomes r).1 = none := by
  have h0 : SimulationManager.total_executions
      (SimulationManager.run_scenarios configs outcomes r).1 = 0 :=
    total_executions_zero_of_times_zero outcomes configs r h
  refine ⟨h0, ?_⟩
  unfold SimulationManager.overall_success_rate
  rw [if_pos h0]

/-- Witness for C10 with a single `times = 0` scenario. -/
theorem final_report_divides_by_zero_witness :
    (∀ cfg ∈ [zeroTimesExample], cfg.times = 0) ∧
    (SimulationManager.total_executions
        (SimulationManager.run_scenarios [zeroTimesExample]
          (fun _ _ => true) rng0).1 = 0 ∧
      SimulationManager.overall_success_rate
        (SimulationManager.run_scenarios [zeroTimesExample]
          (fun _ _ => true) rng0).1 = none) :=
  ⟨by decide,
   final_report_divides_by_zero [zeroTimesExample] (fun _ _ => true) rng0
     (by decide)⟩

lemma run_scenariosAux_spec (outcomes : Nat → Nat → Bool) :
    ∀ (configs : List ScenarioConfig) (r : Rng),
      (SimulationManager.run_scenariosAux outcomes configs r).1.length =
        configs.length ∧
      ∀ (j : Nat) (cfg : ScenarioConfig), configs.get? j = some cfg →
        (SimulationManager.run_scenariosAux outcomes configs r).1.get? j =
          some (ScenarioRunner.run cfg (outcomes j)
            (SimulationManager.rngBefore outcomes configs r j)).1 := by
  intro configs
  induction configs generalizing outcomes with
  | nil =>
    intro r
    exact ⟨rfl, fun j cfg hj => by cases j <;> cases hj⟩
  | cons cfg rest ih =>
    intro r
    constructor
    · simpa [SimulationManager.run_scenariosAux] using
        (ih (fun j => outcomes (j + 1)) (ScenarioRunner.run cfg (outcomes 0) r).2).1
    · intro j c hj
      cases j with
      | zero =>
        cases hj
        rfl
      | succ j =>
        have hrec := (ih (fun j2 => outcomes (j2 + 1))
          (ScenarioRunner.run cfg (outcomes 0) r).2).2 j c hj
        simpa [SimulationManager.run_scenariosAux,
          SimulationManager.rngBefore] using hrec

/-- C7: the driver produces a report for every scenario of the
configuration, in declared order, and the j-th report is exactly the run
of the j-th scenario started from the generator state left by its
predecessors — regardless of the command outcomes, so a failure that
aborts one scenario does not prevent any later scenario from running. -/
theorem driver_runs_every_scenario (configs : List ScenarioConfig)
    (outcomes : Nat → Nat → Bool) (r : Rng) :
    (SimulationManager.run_scenarios configs outcomes r).1.length =
      configs.length ∧
    ∀ (j : Nat) (cfg : ScenarioConfig), configs.get? j = some cfg →
      (SimulationManager.run_scenarios configs outcomes r).1.get? j =
        some (ScenarioRunner.run cfg (outcomes j)
          (SimulationManager.rngBefore outcomes configs r j)).1 :=
  run_scenariosAux_spec outcomes configs r

/-- Witness for C7: with a first scenario whose command always fails, the
driver still runs the second scenario. -/
theorem driver_runs_every_scenario_witness :
    ([noDelayExample, fdbExample].get? 1 = some fdbExample) ∧
    (SimulationManager.run_scenarios [noDelayExample, fdbExample]
        (fun j _ => j != 0) rng0).1.get? 1 =
      some (ScenarioRunner.run fdbExample ((fun (j : Nat) (_ : Nat) => j != 0) 1)
        (SimulationManager.rngBefore (fun j _ => j != 0)
          [noDelayExample, fdbExample] rng0 1)).1 :=
  ⟨rfl,
   (driver_runs_every_scenario [noDelayExample, fdbExample]
     (fun j _ => j != 0) rng0).2 1 fdbExample rfl⟩

end TaskExecutor

namespace TaskExecutor

lemma calc_delay_congr_rdb (c1 c2 : ScenarioConfig)
    (h1 : c1.type = "random_delay_block") (h2 : c2.type = c1.type)
    (hk : c2.k = c1.k) (hm : c2.max_delay = c1.max_delay)
    (ht : c2.times = c1.times) :
    ∀ (i : Nat) (r : Rng),
      ScenarioRunner.calculate_delay c2 i r =
        ScenarioRunner.calculate_delay c1 i r := by
  intro i r
  rw [h1] at h2
  simp [ScenarioRunner.calculate_delay, h1, h2, hk, hm, ht]

lemma runAux_congr (c1 c2 : ScenarioConfig) (o : Nat → Bool)
    (hcd : ∀ (i : Nat) (r : Rng),
      ScenarioRunner.calculate_delay c2 i r =
        ScenarioRunner.calculate_delay c1 i r) :
    ∀ (rem i : Nat) (r : Rng) (s : RunState),
      ScenarioRunner.runAux c2 o i rem r s =
        ScenarioRunner.runAux c1 o i rem r s := by
  intro rem
  induction rem with
  | zero => intro i r s; rfl
  | succ rem ih =>
    intro i r s
    by_cases ho : o i
    · rcases hc : ScenarioRunner.calculate_delay c1 i r with _ | ⟨_ | dd, r1⟩ <;>
        simp only [ScenarioRunner.runAux, hcd i r, hc, if_pos ho]
      split
      · exact ih (i + 1) r1 _
      · exact ih (i + 1) r1 _
    · simp only [ScenarioRunner.runAux, if_neg ho]

/-- C9: two scenarios of kind `random_delay_block` that agree on `k`,
`maxDelay` and `times` — whatever their names and commands — produce the
same sequence of slept delays when run from the same generator state with
the same command outcomes. -/
theorem random_delay_block_seed_determinism (c1 c2 : ScenarioConfig)
    (o : Nat → Bool) (r : Rng)
    (h1 : c1.type = "random_delay_block") (h2 : c2.type = c1.type)
    (hk : c2.k = c1.k) (hm : c2.max_delay = c1.max_delay)
    (ht : c2.times = c1.times) :
    (ScenarioRunner.run c2 o r).1.delay_times =
      (ScenarioRunner.run c1 o r).1.delay_times := by
  unfold ScenarioRunner.run
  rw [ht, runAux_congr c1 c2 o (calc_delay_congr_rdb c1 c2 h1 h2 hk hm ht)]

/-- Witness for C9 at two concrete scenarios differing in name and
command only. -/
theorem random_delay_block_seed_determinism_witness :
    (rdbExampleA.type = "random_delay_block" ∧
      rdbExampleB.type = rdbExampleA.type ∧
      rdbExampleB.k = rdbExampleA.k ∧
      rdbExampleB.max_delay = rdbExampleA.max_delay ∧
      rdbExampleB.times = rdbExampleA.times) ∧
    (ScenarioRunner.run rdbExampleB (fun _ => true) rngOnes).1.delay_times =
      (ScenarioRunner.run rdbExampleA (fun _ => true) rngOnes).1.delay_times :=
  ⟨⟨rfl, rfl, rfl, rfl, rfl⟩,
   random_delay_block_seed_determinism rdbExampleA rdbExampleB
     (fun _ => true) rngOnes rfl rfl rfl rfl rfl⟩

end TaskExecutor

namespace TaskExecutor

lemma runAux_fail_char (cfg : ScenarioConfig) (outcomes : Nat → Bool) (f : Nat)
    (hW : WellFormed cfg)
    (hpre : ∀ j, j < f → outcomes j = true) (hf : outcomes f = false) :
    ∀ (rem i : Nat) (r : Rng) (s : RunState), i ≤ f → f < i + rem →
      (ScenarioRunner.runAux cfg outcomes i rem r s).1.success_count =
        s.success_count + (f - i) ∧
      (ScenarioRunner.runAux cfg outcomes i rem r s).1.failure_count =
        s.failure_count + 1 ∧
      (ScenarioRunner.runAux cfg outcomes i rem r s).1.executions =
        s.executions + (f - i) + 1 ∧
      (Event.consult f ∈ (ScenarioRunner.runAux cfg outcomes i rem r s).1.events ↔
        Event.consult f ∈ s.events) := by
  intro rem
  induction rem with
  | zero =>
    intro i r s hif hbound
    omega
  | succ rem ih =>
    intro i r s hif hbound
    by_cases hieq : i = f
    · subst hieq
      have hfo : ¬ (outcomes i = true) := by rw [hf]; decide
      rw [ScenarioRunner.runAux, if_neg hfo]
      refine ⟨by simp, by simp, by simp [Nat.sub_self], ?_⟩
      simp only [List.mem_append, List.mem_singleton]
      constructor
      · rintro (hmem | hmem)
        · exact hmem
        · cases hmem
      · exact fun hmem => Or.inl hmem
    · have hilt : i < f := by omega
      have hio : outcomes i = true := hpre i hilt
      obtain ⟨d, r1, hcd⟩ := calc_total cfg hW i r
      have hne : Event.consult f ≠ Event.consult i := by
        simp only [ne_eq, Event.consult.injEq]
        omega
      by_cases hd : 0 < d
      · simp only [ScenarioRunner.runAux, hio, hcd, if_true]
        rw [if_pos hd]
        refine ⟨?_, ?_, ?_, ?_⟩
        · rw [(ih (i + 1) r1 _ (by omega) (by omega)).1]
          simp only []
          omega
        · rw [(ih (i + 1) r1 _ (by omega) (by omega)).2.1]
        · rw [(ih (i + 1) r1 _ (by omega) (by omega)).2.2.1]
          simp only []
          omega
        · rw [(ih (i + 1) r1 _ (by omega) (by omega)).2.2.2]
          simp [hne]
      · simp only [ScenarioRunner.runAux, hio, hcd, if_true]
        rw [if_neg hd]
        refine ⟨?_, ?_, ?_, ?_⟩
        · rw [(ih (i + 1) r1 _ (by omega) (by omega)).1]
          simp only []
          omega
        · rw [(ih (i + 1) r1 _ (by omega) (by omega)).2.1]
        · rw [(ih (i + 1) r1 _ (by omega) (by omega)).2.2.1]
          simp only []
          omega
        · rw [(ih (i + 1) r1 _ (by omega) (by omega)).2.2.2]
          simp [hne]

/-- C5: if the command fails at iteration index `f` with `f < times - 1`
(the earlier iterations succeeding) and the scenario is well formed, then
the scenario executes exactly `f + 1` commands (no further commands run),
the delay policy is never consulted at index `f`, and the report shows
exactly one failure and `f` successes. -/
theorem failure_aborts_scenario (cfg : ScenarioConfig) (outcomes : Nat → Bool)
    (r : Rng) (f : Nat) (hW : WellFormed cfg)
    (hpre : ∀ j, j < f → outcomes j = true) (hf : outcomes f = false)
    (hlt : (f : Int) < cfg.times - 1) :
    (ScenarioRunner.run cfg outcomes r).1.failure_count = 1 ∧
    (ScenarioRunner.run cfg outcomes r).1.success_count = f ∧
    (ScenarioRunner.run cfg outcomes r).1.executions = f + 1 ∧
    Event.consult f ∉ (ScenarioRunner.run cfg outcomes r).1.events := by
  obtain ⟨h1, h2, h3, h4⟩ := runAux_fail_char cfg outcomes f hW hpre hf
    cfg.times.toNat 0 r initState (Nat.zero_le f) (by omega)
  refine ⟨?_, ?_, ?_, ?_⟩
  · exact h2
  · simpa [ScenarioRunner.run, initState] using h1
  · simpa [ScenarioRunner.run, initState] using h3
  · rw [ScenarioRunner.run, h4]
    simp [initState]

/-- Witness for C5: a `no_delay` scenario with `times = 5` whose command
fails at iteration index 2. -/
theorem failure_aborts_scenario_witness :
    (WellFormed noDelayExample ∧
      (∀ j, j < 2 → ((fun j2 => j2 != 2) j : Bool) = true) ∧
      ((fun j2 => j2 != 2) 2 : Bool) = false ∧
      ((2 : Nat) : Int) < noDelayExample.times - 1) ∧
    ((ScenarioRunner.run noDelayExample (fun j2 => j2 != 2) rng0).1.failure_count = 1 ∧
      (ScenarioRunner.run noDelayExample (fun j2 => j2 != 2) rng0).1.success_count = 2 ∧
      (ScenarioRunner.run noDelayExample (fun j2 => j2 != 2) rng0).1.executions = 3 ∧
      Event.consult 2 ∉
        (ScenarioRunner.run noDelayExample (fun j2 => j2 != 2) rng0).1.events) :=
  ⟨⟨by decide, by decide, by decide, by decide⟩,
   failure_aborts_scenario noDelayExample (fun j2 => j2 != 2) rng0 2
     (by decide) (by decide) (by decide) (by decide)⟩

end TaskExecutor

namespace TaskExecutor

/-- A `random_block_size_random_delay` scenario with `maxBlockSize = 2`,
`maxDelay = 5.0`, `times = 4`. -/
def rbsRandExample : ScenarioConfig :=
  { name := "rbsr", type := "random_block_size_random_delay", command := "true",
    times := 4, max_block_size := some 2, max_delay := some 5 }

/-- C3 (code bug): `load_config` accepts a `fixed_delay_block` scenario
whose required `k` parameter is missing (the spec's validity invariant is
violated), the scenario's first command executes, and only then does the
delay computation raise — aborting the scenario at delay-decision time
rather than rejecting it before any command runs. -/
theorem missing_param_fails_at_delay_time :
    SimulationManager.load_config [missingKExample] = [missingKExample] ∧
    ¬ WellFormed missingKExample ∧
    ScenarioRunner.calculate_delay missingKExample 0 rng0 = none ∧
    (ScenarioRunner.run missingKExample (fun _ => true) rng0).1.executions = 1 ∧
    (ScenarioRunner.run missingKExample (fun _ => true) rng0).1.success_count = 1 ∧
    (ScenarioRunner.run missingKExample (fun _ => true) rng0).1.aborted = true :=
  ⟨rfl, by decide, rfl, rfl, rfl, rfl⟩

/-- C6 (code bug): a scenario whose `policyKind` is not one of the six
recognized values is accepted by `load_config` and runs to completion
with the fall-through default of zero delay, instead of being
rejected before execution. -/
theorem unknown_kind_runs_with_default :
    SimulationManager.load_config [unknownKindExample] = [unknownKindExample] ∧
    ¬ WellFormed unknownKindExample ∧
    ScenarioRunner.calculate_delay unknownKindExample 0 rng0 =
      some (some 0, rng0) ∧
    (ScenarioRunner.run unknownKindExample (fun _ => true) rng0).1.success_count = 2 ∧
    (ScenarioRunner.run unknownKindExample (fun _ => true) rng0).1.failure_count = 0 ∧
    (ScenarioRunner.run unknownKindExample (fun _ => true) rng0).1.executions = 2 ∧
    (ScenarioRunner.run unknownKindExample (fun _ => true) rng0).1.aborted = false :=
  ⟨rfl, by decide, rfl, rfl, rfl, rfl, rfl⟩

/-- C4: for `fixed_delay_block`, a non-final iteration index `i` gets
delay `fixedDelay` exactly when `(i+1) mod k = 0` and 0 otherwise; at the
§8 example (`k = 3`, `times = 7`, `fixedDelay = 2.0`) the delay sequence
is `[0,0,2,0,0,2,0]`, the executor sleeps exactly after indices 2 and 5,
and the total slept time is `4.0`. -/
theorem fixed_delay_block_rule (cfg : ScenarioConfig) (K : Int) (d : ℚ)
    (r : Rng) (i : Nat)
    (htype : cfg.type = "fixed_delay_block") (hk : cfg.k = some K)
    (hK : 1 ≤ K) (hd : cfg.fixed_delay = some d)
    (hi : (i : Int) < cfg.times - 1) :
    ScenarioRunner.calculate_delay cfg i r =
      some (some (if ((i : Int) + 1) % K = 0 then d else 0), r) ∧
    delaySeq fdbExample r = some [0, 0, 2, 0, 0, 2, 0] ∧
    (ScenarioRunner.run fdbExample (fun _ => true) r).1.delay_times = [2, 2] ∧
    (ScenarioRunner.run fdbExample (fun _ => true) r).1.delay_times.sum = 4 ∧
    (ScenarioRunner.run fdbExample (fun _ => true) r).1.events =
      [Event.exec 0 true, Event.consult 0,
       Event.exec 1 true, Event.consult 1,
       Event.exec 2 true, Event.consult 2, Event.sleep 2 2,
       Event.exec 3 true, Event.consult 3,
       Event.exec 4 true, Event.consult 4,
       Event.exec 5 true, Event.consult 5, Event.sleep 5 2,
       Event.exec 6 true, Event.consult 6] := by
  have hK0 : K ≠ 0 := by omega
  have hguard : ¬ ((i : Int) ≥ cfg.times - 1) := by omega
  have hfm : Int.fmod ((i : Int) + 1) K = ((i : Int) + 1) % K :=
    Int.fmod_eq_emod _ (by omega)
  refine ⟨?_, by rfl, by rfl, ?_, by rfl⟩
  · simp [ScenarioRunner.calculate_delay, htype, hguard, hk, hd, pymod, hK0,
      hfm]
    split <;> rfl
  · have h32 : (ScenarioRunner.run fdbExample (fun _ => true) r).1.delay_times =
      [2, 2] := rfl
    rw [h32]
    norm_num [List.sum_cons, List.sum_nil]

/-- Witness for C4 at iteration index 0 of the §8 example. -/
theorem fixed_delay_block_rule_witness :
    (fdbExample.type = "fixed_delay_block" ∧ fdbExample.k = some 3 ∧
      (1 : Int) ≤ 3 ∧ fdbExample.fixed_delay = some 2 ∧
      ((0 : Nat) : Int) < fdbExample.times - 1) ∧
    (ScenarioRunner.calculate_delay fdbExample 0 rng0 =
        some (some (if (((0 : Nat) : Int) + 1) % 3 = 0 then 2 else 0), rng0) ∧
      delaySeq fdbExample rng0 = some [0, 0, 2, 0, 0, 2, 0] ∧
      (ScenarioRunner.run fdbExample (fun _ => true) rng0).1.delay_times = [2, 2] ∧
      (ScenarioRunner.run fdbExample (fun _ => true) rng0).1.delay_times.sum = 4 ∧
      (ScenarioRunner.run fdbExample (fun _ => true) rng0).1.events =
        [Event.exec 0 true, Event.consult 0,
         Event.exec 1 true, Event.consult 1,
         Event.exec 2 true, Event.consult 2, Event.sleep 2 2,
         Event.exec 3 true, Event.consult 3,
         Event.exec 4 true, Event.consult 4,
         Event.exec 5 true, Event.consult 5, Event.sleep 5 2,
         Event.exec 6 true, Event.consult 6]) :=
  ⟨⟨rfl, rfl, by decide, rfl, by decide⟩,
   fixed_delay_block_rule fdbExample 3 2 rng0 0 rfl rfl (by decide) rfl
     (by decide)⟩

end TaskExecutor

namespace TaskExecutor

/-- C2 counterexample: the source keeps no counter for
`random_block_size_fixed_delay`.  With `maxBlockSize = 2`,
`fixedDelay = 1.0`, `times = 3` and a generator whose every
`randint(1, 2)` draw is 2, the code's delay sequence is `[0, 0, 0]`
while the claimed counter/threshold mechanism produces `[0, 1, 0]`. -/
theorem no_counter_counterexample :
    delaySeq rbsExample rngOnes = some [0, 0, 0] ∧
    specCounterMechanismDelays 2 1 3 rngOnes = some [0, 1, 0] ∧
    delaySeq rbsExample rngOnes ≠ specCounterMechanismDelays 2 1 3 rngOnes :=
  ⟨by decide, by decide, by decide⟩

lemma delaySeqAux_perDrawFixed (cfg : ScenarioConfig) (n : Int) (d : ℚ)
    (htype : cfg.type = "random_block_size_fixed_delay")
    (hn : cfg.max_block_size = some n) (hd : cfg.fixed_delay = some d) :
    ∀ (rem i : Nat) (r : Rng),
      (delaySeqAux cfg i rem r).map Prod.fst =
        perDrawFixedAux n d cfg.times i rem r := by
  intro rem
  induction rem with
  | zero => intro i r; rfl
  | succ rem ih =>
    intro i r
    by_cases hfin : (i : Int) ≥ cfg.times - 1
    · simp only [delaySeqAux, perDrawFixedAux, calc_final cfg i r hfin,
        if_pos hfin]
      rw [← ih (i + 1) r]
      cases hrec : delaySeqAux cfg (i + 1) rem r <;> simp [hrec]
    · rcases hrand : randint r 1 n with _ | ⟨v, r1⟩
      · have hcd : ScenarioRunner.calculate_delay cfg i r = none := by
          simp [ScenarioRunner.calculate_delay, hfin, htype, hn, hd, hrand]
        simp only [delaySeqAux, perDrawFixedAux, hcd, if_neg hfin, hrand]
        rfl
      · have hcd : ScenarioRunner.calculate_delay cfg i r =
            some (if v = 1 then some d else some 0, r1) := by
          simp [ScenarioRunner.calculate_delay, hfin, htype, hn, hd, hrand]
        by_cases hv : v = 1
        · simp only [delaySeqAux, perDrawFixedAux, hcd, if_neg hfin, hrand,
            if_pos hv]
          rw [← ih (i + 1) r1]
          cases hrec : delaySeqAux cfg (i + 1) rem r1 <;> simp [hrec, hv]
        · simp only [delaySeqAux, perDrawFixedAux, hcd, if_neg hfin, hrand,
            if_neg hv]
          rw [← ih (i + 1) r1]
          cases hrec : delaySeqAux cfg (i + 1) rem r1 <;> simp [hrec, hv]

lemma delaySeqAux_perDrawUniform (cfg : ScenarioConfig) (n : Int) (m : ℚ)
    (htype : cfg.type = "random_block_size_random_delay")
    (hn : cfg.max_block_size = some n) (hm : cfg.max_delay = some m) :
    ∀ (rem i : Nat) (r : Rng),
      (delaySeqAux cfg i rem r).map Prod.fst =
        perDrawUniformAux n m cfg.times i rem r := by
  intro rem
  induction rem with
  | zero => intro i r; rfl
  | succ rem ih =>
    intro i r
    by_cases hfin : (i : Int) ≥ cfg.times - 1
    · simp only [delaySeqAux, perDrawUniformAux, calc_final cfg i r hfin,
        if_pos hfin]
      rw [← ih (i + 1) r]
      cases hrec : delaySeqAux cfg (i + 1) rem r <;> simp [hrec]
    · rcases hrand : randint r 1 n with _ | ⟨v, r1⟩
      · have hcd : ScenarioRunner.calculate_delay cfg i r = none := by
          simp [ScenarioRunner.calculate_delay, hfin, htype, hn, hm, hrand]
        simp only [delaySeqAux, perDrawUniformAux, hcd, if_neg hfin, hrand]
        rfl
      · by_cases hv : v = 1
        · have hcd : ScenarioRunner.calculate_delay cfg i r =
              some (some (uniform r1 m).1, (uniform r1 m).2) := by
            simp [ScenarioRunner.calculate_delay, hfin, htype, hn, hm, hrand, hv]
          simp only [delaySeqAux, perDrawUniformAux, hcd, if_neg hfin, hrand,
            if_pos hv]
          rw [← ih (i + 1) (uniform r1 m).2]
          cases hrec : delaySeqAux cfg (i + 1) rem (uniform r1 m).2 <;>
            simp [hrec]
        · have hcd : ScenarioRunner.calculate_delay cfg i r =
              some (some 0, r1) := by
            simp [ScenarioRunner.calculate_delay, hfin, htype, hn, hm, hrand, hv]
          simp only [delaySeqAux, perDrawUniformAux, hcd, if_neg hfin, hrand,
            if_neg hv]
          rw [← ih (i + 1) r1]
          cases hrec : delaySeqAux cfg (i + 1) rem r1 <;> simp [hrec]

/-- C2 (amended): the `random_block_size_*` policies keep no running
counter; at each non-final iteration they draw a fresh uniform-random
integer in `[1, maxBlockSize]` and trigger exactly when the draw equals
1 — with delay `fixedDelay` for the fixed variant and a uniform random
delay in `[0, maxDelay]` for the random variant. -/
theorem random_block_size_per_draw (cfg : ScenarioConfig) (n : Int)
    (d m : ℚ) (r : Rng) :
    (cfg.type = "random_block_size_fixed_delay" →
      cfg.max_block_size = some n → cfg.fixed_delay = some d →
      delaySeq cfg r = perDrawFixedDelays n d cfg.times r) ∧
    (cfg.type = "random_block_size_random_delay" →
      cfg.max_block_size = some n → cfg.max_delay = some m →
      delaySeq cfg r = perDrawUniformDelays n m cfg.times r) :=
  ⟨fun h1 h2 h3 =>
    delaySeqAux_perDrawFixed cfg n d h1 h2 h3 cfg.times.toNat 0 r,
   fun h1 h2 h3 =>
    delaySeqAux_perDrawUniform cfg n m h1 h2 h3 cfg.times.toNat 0 r⟩

/-- Witness for the amended C2 at the two concrete
`random_block_size_*` scenarios. -/
theorem random_block_size_per_draw_witness :
    (rbsExample.type = "random_block_size_fixed_delay" ∧
      rbsExample.max_block_size = some 2 ∧ rbsExample.fixed_delay = some 1 ∧
      delaySeq rbsExample rngOnes = perDrawFixedDelays 2 1 rbsExample.times rngOnes) ∧
    (rbsRandExample.type = "random_block_size_random_delay" ∧
      rbsRandExample.max_block_size = some 2 ∧
      rbsRandExample.max_delay = some 5 ∧
      delaySeq rbsRandExample rngOnes =
        perDrawUniformDelays 2 5 rbsRandExample.times rngOnes) :=
  ⟨⟨rfl, rfl, rfl,
    (random_block_size_per_draw rbsExample 2 1 5 rngOnes).1 rfl rfl rfl⟩,
   ⟨rfl, rfl, rfl,
    (random_block_size_per_draw rbsRandExample 2 1 5 rngOnes).2 rfl rfl rfl⟩⟩

end TaskExecutor
